import Mathlib

/-!
Verification of the loan-eligibility matching engine.

Shallow embedding of the Go sources:
  * `internal/models` (match.go, user/product models)  → namespace `Models`
  * `internal/services/database` (match repository)    → namespace `Database`
  * the matcher package (the 3-stage pipeline)         → namespace `Matcher`

Go `float64` values are modelled as `ℚ` (rounding is not modelled), Go
`int`/`int64` as `ℤ`, Go `*int` as `Option ℤ`, Go string-backed enums as
`String`.  Where the code can divide by zero — the unguarded income ratio of
CalculateMatchScore — the float result (`Inf`/`NaN`) is modelled explicitly
with `GoFloat`; every other division in the sources is guarded or by a
nonzero constant, as noted at each definition.
Struct fields that the matching logic never reads (emails, timestamps,
display names) are omitted from the embedded records.
-/

namespace Models

/-- models.EmploymentStatus: a string-backed enum. -/
abbrev EmploymentStatus := String

/-- models.MatchStatus constant "eligible". -/
def MatchStatusEligible : String := "eligible"

/-- models.MatchSource constant "llm_check". -/
def MatchSourceLLMCheck : String := "llm_check"

/-- models.User (fields read by the matcher; email/timestamps omitted). -/
structure User where
  ID : ℤ
  UserID : String
  MonthlyIncome : ℚ
  CreditScore : ℤ
  EmploymentStatus : EmploymentStatus
  Age : ℤ
  IsActive : Bool
deriving Repr, DecidableEq

/-- models.LoanProduct (fields read by the matcher; names/timestamps omitted). -/
structure LoanProduct where
  ID : ℤ
  InterestRateMax : ℚ
  LoanAmountMin : ℚ
  TenureMaxMonths : ℤ
  MinMonthlyIncome : ℚ
  MinCreditScore : ℤ
  MaxCreditScore : Option ℤ
  MinAge : ℤ
  MaxAge : ℤ
  AcceptedEmploymentStatus : List EmploymentStatus
  IsActive : Bool
deriving Repr, DecidableEq

/-- Alias used inside `MatchCandidate`, whose own `EmploymentStatus` field
would otherwise shadow the type name. -/
abbrev EmploymentStatusList := List EmploymentStatus

/-- models.MatchCandidate: the SQL-prefilter row (user and product columns
joined together; display-only columns omitted). -/
structure MatchCandidate where
  UserDBID : ℤ
  MonthlyIncome : ℚ
  CreditScore : ℤ
  EmploymentStatus : EmploymentStatus
  Age : ℤ
  ProductID : ℤ
  MinMonthlyIncome : ℚ
  MinCreditScore : ℤ
  MaxCreditScore : Option ℤ
  MinAge : ℤ
  MaxAge : ℤ
  AcceptedEmploymentStatus : EmploymentStatusList
deriving Repr, DecidableEq

/-- models.MatchCandidate.IsFullyEligible: sequential early-return checks,
translated clause by clause. -/
def MatchCandidate.IsFullyEligible (c : MatchCandidate) : Bool :=
  if c.MonthlyIncome < c.MinMonthlyIncome then false
  else if c.CreditScore < c.MinCreditScore then false
  else if (match c.MaxCreditScore with
           | some mx => decide (mx < c.CreditScore)
           | none => false) then false
  else if c.Age < c.MinAge || c.MaxAge < c.Age then false
  else if 0 < c.AcceptedEmploymentStatus.length then
    c.AcceptedEmploymentStatus.any (fun status => status == c.EmploymentStatus)
  else true

/-- The fragment of IEEE-754 float64 behaviour that CalculateMatchScore
exercises: finite values are exact rationals (rounding is not modelled), plus
the infinities and NaN that division by zero produces.  Comparisons involving
NaN are false and NaN propagates through arithmetic, as in Go. -/
inductive GoFloat where
  | finite (q : ℚ)
  | posInf
  | negInf
  | nan
deriving Repr, DecidableEq

/-- Go float64 division of two finite values: x / 0 is NaN for x = 0 and a
signed infinity otherwise. -/
def GoFloat.fdiv (x y : ℚ) : GoFloat :=
  if y = 0 then
    if x = 0 then .nan else if 0 < x then .posInf else .negInf
  else .finite (x / y)

/-- Go float64 strict order: any comparison involving NaN is false. -/
def GoFloat.flt : GoFloat → GoFloat → Bool
  | .nan, _ => false
  | _, .nan => false
  | .finite a, .finite b => decide (a < b)
  | .finite _, .posInf => true
  | .finite _, .negInf => false
  | .posInf, _ => false
  | .negInf, .negInf => false
  | .negInf, _ => true

/-- Go float64 multiplication by a finite constant; 0 * Inf is NaN. -/
def GoFloat.fmulConst (k : ℚ) : GoFloat → GoFloat
  | .finite a => .finite (k * a)
  | .nan => .nan
  | .posInf => if k = 0 then .nan else if 0 < k then .posInf else .negInf
  | .negInf => if k = 0 then .nan else if 0 < k then .negInf else .posInf

/-- Go float64 addition: NaN propagates, opposite infinities give NaN. -/
def GoFloat.fadd : GoFloat → GoFloat → GoFloat
  | .nan, _ => .nan
  | _, .nan => .nan
  | .finite a, .finite b => .finite (a + b)
  | .finite _, .posInf => .posInf
  | .finite _, .negInf => .negInf
  | .posInf, .negInf => .nan
  | .posInf, _ => .posInf
  | .negInf, .posInf => .nan
  | .negInf, _ => .negInf

/-- Whether a float value is a finite number within [lo, hi]. -/
def GoFloat.withinRange (lo hi : ℚ) : GoFloat → Bool
  | .finite q => decide (lo ≤ q) && decide (q ≤ hi)
  | _ => false

/-- models.MatchCandidate.CalculateMatchScore: sequential accumulation of the
four weighted components, then a single upper clamp at 100, over the GoFloat
fragment.  The income ratio `income / minIncome` is the one unguarded
division: a zero income floor produces Inf (capped to ratio 2) or, for a zero
income, NaN, exactly as Go float64 division does.  The credit component
divides by the nonzero constant 600 and stays finite. -/
def MatchCandidate.CalculateMatchScore (c : MatchCandidate) : GoFloat :=
  let maxScore : GoFloat := .finite 100
  -- Income score (30 points max): incomeRatio := income / minIncome, capped at 2
  let s1 : GoFloat :=
    if c.MinMonthlyIncome ≤ c.MonthlyIncome then
      let r0 := GoFloat.fdiv c.MonthlyIncome c.MinMonthlyIncome
      let r1 := if GoFloat.flt (.finite 2) r0 then .finite 2 else r0
      GoFloat.fmulConst 15 r1
    else .finite 0
  -- Credit score (40 points max), normalized over the 300-900 range
  let s2 : GoFloat := GoFloat.fadd s1
    (if c.MinCreditScore ≤ c.CreditScore then
       .finite (40 * (((c.CreditScore - 300 : ℤ) : ℚ) / 600))
     else .finite 0)
  -- Age score (15 points max)
  let s3 : GoFloat := GoFloat.fadd s2
    (if c.MinAge ≤ c.Age ∧ c.Age ≤ c.MaxAge then .finite 15 else .finite 0)
  -- Employment score (15 points max)
  let s4 : GoFloat := GoFloat.fadd s3
    (if 0 < c.AcceptedEmploymentStatus.length then
       (if c.AcceptedEmploymentStatus.any (fun status => status == c.EmploymentStatus)
        then .finite 15 else .finite 0)
     else .finite 15)
  if GoFloat.flt maxScore s4 then maxScore else s4

/-- models.MatchCreate (the row written by BulkInsert; batch tag omitted). -/
structure MatchCreate where
  UserID : ℤ
  ProductID : ℤ
  MatchScore : ℚ
  Status : String
  MatchSource : String
  IncomeEligible : Bool
  CreditScoreEligible : Bool
  AgeEligible : Bool
  EmploymentEligible : Bool
  LLMAnalysis : String
  LLMConfidence : Option ℚ
deriving Repr, DecidableEq

end Models

namespace Database

open Models

/-- The WHERE clause of MatchRepository.SQLPrefilterMatches, restricted to one
(user, product) row of the cross join: activity flags, income floor, credit
floor, optional credit ceiling, and the age range.  The query has no
employment condition. -/
def sqlPrefilterWhere (u : User) (p : LoanProduct) : Bool :=
  u.IsActive && p.IsActive &&
  decide (p.MinMonthlyIncome ≤ u.MonthlyIncome) &&
  decide (p.MinCreditScore ≤ u.CreditScore) &&
  (match p.MaxCreditScore with
   | none => true
   | some mx => decide (u.CreditScore ≤ mx)) &&
  decide (p.MinAge ≤ u.Age) && decide (u.Age ≤ p.MaxAge)

/-- The SELECT list of SQLPrefilterMatches: one MatchCandidate row per
surviving (user, product) pair of the cross join. -/
def rowOf (u : User) (p : LoanProduct) : MatchCandidate :=
  { UserDBID := u.ID
    MonthlyIncome := u.MonthlyIncome
    CreditScore := u.CreditScore
    EmploymentStatus := u.EmploymentStatus
    Age := u.Age
    ProductID := p.ID
    MinMonthlyIncome := p.MinMonthlyIncome
    MinCreditScore := p.MinCreditScore
    MaxCreditScore := p.MaxCreditScore
    MinAge := p.MinAge
    MaxAge := p.MaxAge
    AcceptedEmploymentStatus := p.AcceptedEmploymentStatus }

/-- MatchRepository.SQLPrefilterMatches over an explicit table state: the
cross join of the users and products tables filtered by the WHERE clause.
(The ORDER BY u.id, p.id of the query is represented by the given row order;
the claims about this function only concern which rows are returned.) -/
def SQLPrefilterMatches (users : List User) (products : List LoanProduct) :
    List MatchCandidate :=
  users.flatMap fun u => products.filterMap fun p =>
    if sqlPrefilterWhere u p then some (rowOf u p) else none

end Database

namespace Matcher

open Models

/-- matcher.MatchCandidate (the pipeline-internal candidate record). -/
structure MatchCandidate where
  UserID : ℤ
  ProductID : ℤ
  EligibilityScore : ℚ
  IncomeEligible : Bool
  CreditScoreEligible : Bool
  AgeEligible : Bool
  EmploymentEligible : Bool
  LLMCheckPassed : Bool
  LLMReasoning : String
  LLMConfidence : ℚ
deriving Repr, DecidableEq

/-- sqlPrefilter: `incomeEligible := user.MonthlyIncome >= product.MinMonthlyIncome`. -/
def incomeEligible (u : User) (p : LoanProduct) : Bool :=
  decide (p.MinMonthlyIncome ≤ u.MonthlyIncome)

/-- sqlPrefilter: `creditScoreEligible := user.CreditScore >= product.MinCreditScore`
(no maximum-credit-score clause appears in this function). -/
def creditScoreEligible (u : User) (p : LoanProduct) : Bool :=
  decide (p.MinCreditScore ≤ u.CreditScore)

/-- sqlPrefilter: `ageEligible := user.Age >= product.MinAge && user.Age <= product.MaxAge`. -/
def ageEligible (u : User) (p : LoanProduct) : Bool :=
  decide (p.MinAge ≤ u.Age) && decide (u.Age ≤ p.MaxAge)

/-- sqlPrefilter employment block: scan the accepted list for the user's
status, then force true when the list is empty (no restriction). -/
def employmentEligible (u : User) (p : LoanProduct) : Bool :=
  let found := p.AcceptedEmploymentStatus.any fun empStatus =>
    empStatus == u.EmploymentStatus
  if p.AcceptedEmploymentStatus.length = 0 then true else found

/-- The conjunction sqlPrefilter tests before appending a candidate. -/
def stage1Pass (u : User) (p : LoanProduct) : Bool :=
  incomeEligible u p && creditScoreEligible u p &&
  ageEligible u p && employmentEligible u p

/-- The candidate record sqlPrefilter appends for a passing pair: the four
computed flags, IDs, and zero values for the fields set by later stages. -/
def mkCandidate (u : User) (p : LoanProduct) : MatchCandidate :=
  { UserID := u.ID
    ProductID := p.ID
    EligibilityScore := 0
    IncomeEligible := incomeEligible u p
    CreditScoreEligible := creditScoreEligible u p
    AgeEligible := ageEligible u p
    EmploymentEligible := employmentEligible u p
    LLMCheckPassed := false
    LLMReasoning := ""
    LLMConfidence := 0 }

/-- MatcherService.sqlPrefilter: the in-memory double loop over users and
products, keeping exactly the pairs whose four flags are all true. -/
def sqlPrefilter (users : List User) (products : List LoanProduct) :
    List MatchCandidate :=
  users.flatMap fun user => products.filterMap fun product =>
    if stage1Pass user product then some (mkCandidate user product) else none

/-- The Go map userMap[u.ID] = u built by a forward loop: a later user with
the same ID overwrites an earlier one. -/
def mapUserById (users : List User) : ℤ → Option User :=
  users.foldl (fun m u => fun id => if u.ID = id then some u else m id)
    (fun _ => none)

/-- The Go map productMap[p.ID] = p built by a forward loop. -/
def mapProductById (products : List LoanProduct) : ℤ → Option LoanProduct :=
  products.foldl (fun m p => fun id => if p.ID = id then some p else m id)
    (fun _ => none)

/-- matcher.pow: `result := 1.0; for i := 0; i < int(exp); i++ { result *= base }`.
The exponent reaching this function is always a whole number of months, so it
is taken as `ℕ` here (`int(exp)` of a negative float would also give an empty
loop, matching `toNat` at the call site). -/
def goPow (base : ℚ) (exp : ℕ) : ℚ :=
  (List.range exp).foldl (fun result _ => result * base) 1

/-- matcher.passesBusinessRules: the Stage-2 affordability check.  EMI for the
minimum amount at the maximum rate must not exceed `income * 0.5 * 2`. -/
def passesBusinessRules (u : User) (p : LoanProduct) : Bool :=
  let maxEMI : ℚ := u.MonthlyIncome * (1 / 2)
  let monthlyRate : ℚ := p.InterestRateMax / 100 / 12
  let tenure : ℤ := if p.TenureMaxMonths = 0 then 60 else p.TenureMaxMonths
  if 0 < monthlyRate then
    let emiForMinAmount : ℚ :=
      p.LoanAmountMin * monthlyRate * goPow (1 + monthlyRate) tenure.toNat /
        (goPow (1 + monthlyRate) tenure.toNat - 1)
    if maxEMI * 2 < emiForMinAmount then false else true
  else true

/-- matcher.abs on float64. -/
def goAbs (x : ℚ) : ℚ := if x < 0 then -x else x

/-- calculateEligibilityScore, credit block (40% weight): the amount added to
the running score by the `creditScoreRange > 0` branch. -/
def creditComponent (u : User) (p : LoanProduct) : ℚ :=
  let creditScoreExcess : ℚ := ((u.CreditScore - p.MinCreditScore : ℤ) : ℚ)
  let creditScoreRange : ℚ := ((900 - p.MinCreditScore : ℤ) : ℚ)
  if 0 < creditScoreRange then
    let c0 := creditScoreExcess / creditScoreRange * 40
    let c1 := if 40 < c0 then 40 else c0
    if c1 < 0 then 0 else c1
  else 0

/-- calculateEligibilityScore, income block (30% weight). -/
def incomeComponent (u : User) (p : LoanProduct) : ℚ :=
  let incomeExcess : ℚ := u.MonthlyIncome - p.MinMonthlyIncome
  let incomeRange : ℚ := p.MinMonthlyIncome * 2
  if 0 < incomeRange then
    let c0 := incomeExcess / incomeRange * 30
    let c1 := if 30 < c0 then 30 else c0
    if c1 < 0 then 0 else c1
  else 0

/-- calculateEligibilityScore, age block (10% weight): distance from the
midpoint of the accepted age range, clamped below at 0. -/
def ageComponent (u : User) (p : LoanProduct) : ℚ :=
  let ageRange : ℚ := ((p.MaxAge - p.MinAge : ℤ) : ℚ)
  if 0 < ageRange then
    let ageMidpoint : ℚ := ((p.MinAge + p.MaxAge : ℤ) : ℚ) / 2
    let ageDiff : ℚ := goAbs ((u.Age : ℚ) - ageMidpoint)
    let c0 := (1 - ageDiff / (ageRange / 2)) * 10
    if c0 < 0 then 0 else c0
  else 0

/-- matcher.calculateEligibilityScore: the score accumulates the credit,
income, flat loan-amount (20) and age blocks in order; since the blocks are
independent the accumulation is written as their sum. -/
def calculateEligibilityScore (u : User) (p : LoanProduct) : ℚ :=
  creditComponent u p + incomeComponent u p + 20 + ageComponent u p

/-- matcher.logicFilter: Stage 2.  Looks each candidate's user and product up
in ID maps, drops candidates failing the business rules, and writes the
eligibility score into the survivors. -/
def logicFilter (candidates : List MatchCandidate) (users : List User)
    (products : List LoanProduct) : List MatchCandidate :=
  let userMap := mapUserById users
  let productMap := mapProductById products
  candidates.filterMap fun c =>
    match userMap c.UserID, productMap c.ProductID with
    | some user, some product =>
      if passesBusinessRules user product then
        some { c with EligibilityScore := calculateEligibilityScore user product }
      else none
    | _, _ => none

/-- One truncated bubble pass of selectTopCandidates: `k` remaining adjacent
comparisons (the Go inner loop `for j := 0; j < n-i-1; j++`), swapping
whenever the left score is strictly below the right score. -/
def bubblePass : List MatchCandidate → ℕ → List MatchCandidate
  | l, 0 => l
  | [], _ + 1 => []
  | [a], _ + 1 => [a]
  | a :: b :: rest, k + 1 =>
    if a.EligibilityScore < b.EligibilityScore then b :: bubblePass (a :: rest) k
    else a :: bubblePass (b :: rest) k

/-- The outer loop of selectTopCandidates' bubble sort: the pass with `k+1`
comparisons, then the passes with `k`, `k-1`, ... comparisons (the Go outer
loop `for i := 0; i < n-1; i++` with inner bound `n-i-1`). -/
def bubbleOuter : List MatchCandidate → ℕ → List MatchCandidate
  | l, 0 => l
  | l, k + 1 => bubbleOuter (bubblePass l (k + 1)) k

/-- The in-place bubble sort of selectTopCandidates, descending by
eligibility score. -/
def bubbleSortByScore (l : List MatchCandidate) : List MatchCandidate :=
  bubbleOuter l (l.length - 1)

/-- matcher.selectTopCandidates: returns the input unchanged when it already
fits the limit, otherwise bubble-sorts descending by score and truncates. -/
def selectTopCandidates (candidates : List MatchCandidate) (limit : ℕ) :
    List MatchCandidate :=
  if candidates.length ≤ limit then candidates
  else (bubbleSortByScore candidates).take limit

/-- matcher.LLMResponse. -/
structure LLMResponse where
  Qualified : Bool
  Confidence : ℚ
  Reasoning : String
deriving Repr, DecidableEq

/-- The reasoning note written on the high-score fallback path of llmCheck. -/
def fallbackReasoning : String :=
  "LLM check skipped due to API error, high score approved"

/-- The candidate as llmCheck stores it on the fallback path. -/
def fallbackMark (c : MatchCandidate) : MatchCandidate :=
  { c with LLMCheckPassed := true, LLMReasoning := fallbackReasoning }

/-- The candidate as llmCheck stores it after a successful LLM response. -/
def withResponse (c : MatchCandidate) (r : LLMResponse) : MatchCandidate :=
  { c with LLMCheckPassed := r.Qualified, LLMReasoning := r.Reasoning,
           LLMConfidence := r.Confidence }

/-- The loop of matcher.llmCheck.  The external call is abstracted as a
function to `Except`; the second result is `lastErr` (the error of the last
failing call, `none` when every call succeeded).  A candidate whose user or
product is missing from the maps is skipped. -/
def llmCheckList (llm : User → LoanProduct → Except String LLMResponse)
    (userMap : ℤ → Option User) (productMap : ℤ → Option LoanProduct) :
    List MatchCandidate → List MatchCandidate × Option String
  | [] => ([], none)
  | c :: rest =>
    let next := llmCheckList llm userMap productMap rest
    match userMap c.UserID, productMap c.ProductID with
    | some u, some p =>
      match llm u p with
      | Except.error e =>
        (if 60 ≤ c.EligibilityScore then fallbackMark c :: next.1 else next.1,
         match next.2 with
         | some laterErr => some laterErr
         | none => some e)
      | Except.ok r =>
        (if r.Qualified then withResponse c r :: next.1 else next.1, next.2)
    | _, _ => next

/-- matcher.llmCheck: builds the user and product ID maps, then runs the loop. -/
def llmCheck (llm : User → LoanProduct → Except String LLMResponse)
    (candidates : List MatchCandidate) (users : List User)
    (products : List LoanProduct) : List MatchCandidate × Option String :=
  llmCheckList llm (mapUserById users) (mapProductById products) candidates

/-- The stub response LLMClient.EvaluateMatch returns without any network
call when no API key is configured. -/
def noKeyResponse : LLMResponse :=
  { Qualified := true
    Confidence := 7 / 10
    Reasoning := "LLM check skipped - no API key configured" }

/-- LLMClient.EvaluateMatch: short-circuits to the stub response when the API
key is empty; otherwise performs the network call, abstracted here as the
`network` argument. -/
def EvaluateMatch (apiKey : String)
    (network : User → LoanProduct → Except String LLMResponse)
    (u : User) (p : LoanProduct) : Except String LLMResponse :=
  if apiKey = "" then Except.ok noKeyResponse else network u p

/-- matcher.createMatches: one MatchCreate per candidate, with fixed status
"eligible" and source "llm_check"; a zero confidence becomes a nil pointer. -/
def createMatches (candidates : List MatchCandidate) : List Models.MatchCreate :=
  candidates.map fun c =>
    { UserID := c.UserID
      ProductID := c.ProductID
      MatchScore := c.EligibilityScore
      Status := Models.MatchStatusEligible
      MatchSource := Models.MatchSourceLLMCheck
      IncomeEligible := c.IncomeEligible
      CreditScoreEligible := c.CreditScoreEligible
      AgeEligible := c.AgeEligible
      EmploymentEligible := c.EmploymentEligible
      LLMAnalysis := c.LLMReasoning
      LLMConfidence := if (0 : ℚ) < c.LLMConfidence then some c.LLMConfidence else none }

/-- matcher.MatchingResult (ProcessingTime omitted: wall-clock time is not
modelled). -/
structure MatchingResult where
  TotalUsers : ℕ
  TotalProducts : ℕ
  TotalPairs : ℕ
  SQLPrefilterPassed : ℕ
  LogicFilterPassed : ℕ
  LLMCheckPassed : ℕ
  FinalMatches : ℕ
  Errors : List String
deriving Repr, DecidableEq

/-- MatcherService.ProcessNewUsers: the pipeline orchestrator.  The repository
reads and the bulk insert are abstracted as `Except` values/functions; each Go
`return nil, fmt.Errorf(...)` becomes `Except.error` carrying the wrapped
message — no MatchingResult accompanies it. -/
def ProcessNewUsers (getUsers : Except String (List User))
    (getProducts : Except String (List LoanProduct))
    (llm : User → LoanProduct → Except String LLMResponse)
    (bulkInsert : List Models.MatchCreate → Except String (ℕ × ℕ)) :
    Except String MatchingResult :=
  match getUsers with
  | Except.error e => Except.error ("failed to get users: " ++ e)
  | Except.ok users =>
    match getProducts with
    | Except.error e => Except.error ("failed to get products: " ++ e)
    | Except.ok products =>
      let candidates := sqlPrefilter users products
      let stage2 := logicFilter candidates users products
      let topCandidates := selectTopCandidates stage2 100
      let checked := llmCheck llm topCandidates users products
      let matchRows := createMatches checked.1
      match bulkInsert matchRows with
      | Except.error e => Except.error ("failed to save matches: " ++ e)
      | Except.ok _ =>
        Except.ok
          { TotalUsers := users.length
            TotalProducts := products.length
            TotalPairs := users.length * products.length
            SQLPrefilterPassed := candidates.length
            LogicFilterPassed := stage2.length
            LLMCheckPassed := checked.1.length
            FinalMatches := matchRows.length
            Errors := match checked.2 with
                      | some e => [e]
                      | none => [] }

/-- Modelled from the spec: the amortizing-loan installment formula
`P * r * (1+r)^n / ((1+r)^n - 1)` of section 4.3, used to compare the code's
affordability rejection against the spec's formula. -/
def specInstallment (P r : ℚ) (n : ℕ) : ℚ :=
  P * r * (1 + r) ^ n / ((1 + r) ^ n - 1)

end Matcher

/-! Concrete fixtures used by witnesses and counterexamples. -/

/-- An active applicant with credit score 800, otherwise unremarkable. -/
def exUser800 : Models.User :=
  { ID := 1, UserID := "user-800", MonthlyIncome := 50000, CreditScore := 800,
    EmploymentStatus := "employed", Age := 30, IsActive := true }

/-- An active student applicant. -/
def exUserStudent : Models.User :=
  { ID := 2, UserID := "user-student", MonthlyIncome := 20000, CreditScore := 400,
    EmploymentStatus := "student", Age := 25, IsActive := true }

/-- An active product with a set maximum credit score of 700 and no
employment restriction. -/
def exProductMax700 : Models.LoanProduct :=
  { ID := 101, InterestRateMax := 12, LoanAmountMin := 10000, TenureMaxMonths := 12,
    MinMonthlyIncome := 10000, MinCreditScore := 300, MaxCreditScore := some 700,
    MinAge := 18, MaxAge := 60, AcceptedEmploymentStatus := [], IsActive := true }

/-- An active product restricted to student applicants, with no maximum
credit score. -/
def exProductStudentsOnly : Models.LoanProduct :=
  { ID := 102, InterestRateMax := 10, LoanAmountMin := 5000, TenureMaxMonths := 24,
    MinMonthlyIncome := 10000, MinCreditScore := 300, MaxCreditScore := none,
    MinAge := 18, MaxAge := 60, AcceptedEmploymentStatus := ["student"], IsActive := true }

/-- A product whose minimum credit score is 700, for boundary scoring. -/
def exProductMin700 : Models.LoanProduct :=
  { ID := 103, InterestRateMax := 12, LoanAmountMin := 10000, TenureMaxMonths := 12,
    MinMonthlyIncome := 10000, MinCreditScore := 700, MaxCreditScore := none,
    MinAge := 18, MaxAge := 60, AcceptedEmploymentStatus := [], IsActive := true }

/-- A boundary applicant: income exactly at `exProductMin700`'s minimum
income and credit exactly at its minimum credit score. -/
def exUserBoundary : Models.User :=
  { ID := 3, UserID := "user-boundary", MonthlyIncome := 10000, CreditScore := 700,
    EmploymentStatus := "employed", Age := 39, IsActive := true }

/-- The boundary applicant joined with `exProductMin700` as a prefilter row. -/
def exRowBoundary : Models.MatchCandidate :=
  Database.rowOf exUserBoundary exProductMin700

/-- An income-0 applicant row (ValidateUserCreate accepts a zero income)
against a product row with a zero income floor, credit exactly at the product
minimum: the claim's income = minIncome boundary with an unguarded 0/0. -/
def exRowZeroZero : Models.MatchCandidate :=
  { UserDBID := 4, MonthlyIncome := 0, CreditScore := 300,
    EmploymentStatus := "employed", Age := 30, ProductID := 104,
    MinMonthlyIncome := 0, MinCreditScore := 300, MaxCreditScore := none,
    MinAge := 18, MaxAge := 60, AcceptedEmploymentStatus := [] }

/-- A Stage-2 survivor whose eligibility score is exactly 60. -/
def exCand60 : Matcher.MatchCandidate :=
  { UserID := 1, ProductID := 101, EligibilityScore := 60,
    IncomeEligible := true, CreditScoreEligible := true, AgeEligible := true,
    EmploymentEligible := true, LLMCheckPassed := false, LLMReasoning := "",
    LLMConfidence := 0 }

/-- A candidate with score 10, ahead of a higher-scored one in input order. -/
def exCandLow : Matcher.MatchCandidate :=
  { UserID := 1, ProductID := 101, EligibilityScore := 10,
    IncomeEligible := true, CreditScoreEligible := true, AgeEligible := true,
    EmploymentEligible := true, LLMCheckPassed := false, LLMReasoning := "",
    LLMConfidence := 0 }

/-- A candidate with score 20. -/
def exCandHigh : Matcher.MatchCandidate :=
  { UserID := 1, ProductID := 102, EligibilityScore := 20,
    IncomeEligible := true, CreditScoreEligible := true, AgeEligible := true,
    EmploymentEligible := true, LLMCheckPassed := false, LLMReasoning := "",
    LLMConfidence := 0 }

/-- An external reasoning service that always fails. -/
def errLLM : Models.User → Models.LoanProduct → Except String Matcher.LLMResponse :=
  fun _ _ => Except.error "timeout"

/-- An external reasoning service that always qualifies. -/
def stubOkLLM : Models.User → Models.LoanProduct → Except String Matcher.LLMResponse :=
  fun _ _ => Except.ok Matcher.noKeyResponse

/-- The match row createMatches builds from `exCand60` after the fallback. -/
def exRow60 : Models.MatchCreate :=
  { UserID := 1, ProductID := 101, MatchScore := 60,
    Status := Models.MatchStatusEligible, MatchSource := Models.MatchSourceLLMCheck,
    IncomeEligible := true, CreditScoreEligible := true, AgeEligible := true,
    EmploymentEligible := true, LLMAnalysis := Matcher.fallbackReasoning,
    LLMConfidence := none }

/-- Sorted by eligibility score, descending (ties allowed). -/
abbrev sortedDesc (l : List Matcher.MatchCandidate) : Prop :=
  l.Sorted fun a b => b.EligibilityScore ≤ a.EligibilityScore

/-! Helper lemmas. -/

/-- Membership in the Stage-1 output: exactly the candidate records of
passing pairs. -/
theorem mem_sqlPrefilter {users : List Models.User}
    {products : List Models.LoanProduct} {c : Matcher.MatchCandidate} :
    c ∈ Matcher.sqlPrefilter users products ↔
      ∃ u ∈ users, ∃ p ∈ products,
        Matcher.stage1Pass u p = true ∧ Matcher.mkCandidate u p = c := by
  simp only [Matcher.sqlPrefilter, List.mem_flatMap, List.mem_filterMap,
    Option.ite_none_right_eq_some, Option.some.injEq]

/-- The Go power loop computes the monoid power. -/
theorem goPow_eq_pow (base : ℚ) (n : ℕ) : Matcher.goPow base n = base ^ n := by
  induction n with
  | zero => rfl
  | succ k ih =>
    simp only [Matcher.goPow] at ih ⊢
    rw [List.range_succ, List.foldl_append, ih, List.foldl_cons, List.foldl_nil,
      pow_succ]

/-- Bounds for the clamp-above-then-below pattern of the score components. -/
theorem clampInterval (hi c0 : ℚ) (hhi : 0 ≤ hi) :
    0 ≤ (if (if hi < c0 then hi else c0) < 0 then 0
         else (if hi < c0 then hi else c0)) ∧
    (if (if hi < c0 then hi else c0) < 0 then 0
       else (if hi < c0 then hi else c0)) ≤ hi := by
  split_ifs with h1 h2 h3 <;> constructor <;> linarith

/-- goAbs is non-negative. -/
theorem goAbs_nonneg (x : ℚ) : 0 ≤ Matcher.goAbs x := by
  simp only [Matcher.goAbs]
  split_ifs with h <;> linarith

/-- The credit block of the Stage-2 score stays in [0, 40]. -/
theorem creditComponent_bounds (u : Models.User) (p : Models.LoanProduct) :
    0 ≤ Matcher.creditComponent u p ∧ Matcher.creditComponent u p ≤ 40 := by
  simp only [Matcher.creditComponent]
  by_cases h : (0 : ℚ) < ((900 - p.MinCreditScore : ℤ) : ℚ)
  · rw [if_pos h]
    exact clampInterval 40 _ (by norm_num)
  · rw [if_neg h]
    exact ⟨le_refl 0, by norm_num⟩

/-- The income block of the Stage-2 score stays in [0, 30]. -/
theorem incomeComponent_bounds (u : Models.User) (p : Models.LoanProduct) :
    0 ≤ Matcher.incomeComponent u p ∧ Matcher.incomeComponent u p ≤ 30 := by
  simp only [Matcher.incomeComponent]
  by_cases h : (0 : ℚ) < p.MinMonthlyIncome * 2
  · rw [if_pos h]
    exact clampInterval 30 _ (by norm_num)
  · rw [if_neg h]
    exact ⟨le_refl 0, by norm_num⟩

/-- The age block of the Stage-2 score stays in [0, 10]. -/
theorem ageComponent_bounds (u : Models.User) (p : Models.LoanProduct) :
    0 ≤ Matcher.ageComponent u p ∧ Matcher.ageComponent u p ≤ 10 := by
  simp only [Matcher.ageComponent]
  split_ifs with h h2
  · exact ⟨le_refl 0, by norm_num⟩
  · constructor
    · linarith
    · have hd : 0 ≤ Matcher.goAbs ((u.Age : ℚ) - ((p.MinAge + p.MaxAge : ℤ) : ℚ) / 2) :=
        goAbs_nonneg _
      have hr : 0 ≤ ((p.MaxAge - p.MinAge : ℤ) : ℚ) / 2 := by linarith
      have hq : 0 ≤ Matcher.goAbs ((u.Age : ℚ) - ((p.MinAge + p.MaxAge : ℤ) : ℚ) / 2) /
          (((p.MaxAge - p.MinAge : ℤ) : ℚ) / 2) := div_nonneg hd hr
      linarith
  · exact ⟨le_refl 0, by norm_num⟩

/-! Claim theorems. -/

/-- C1: a (user, product) pair is included in the Stage-1 in-memory candidate
generator's output exactly when all four eligibility flags are true for the
pair, and the employment flag is true whenever the product's
accepted-employment list is empty. -/
theorem claim_C1_stage1_pass_iff_flags :
    (∀ (users : List Models.User) (products : List Models.LoanProduct)
       (u : Models.User) (p : Models.LoanProduct),
       u ∈ users → p ∈ products →
       (Matcher.mkCandidate u p ∈ Matcher.sqlPrefilter users products ↔
         (Matcher.incomeEligible u p = true ∧
          Matcher.creditScoreEligible u p = true ∧
          Matcher.ageEligible u p = true ∧
          Matcher.employmentEligible u p = true))) ∧
    (∀ (u : Models.User) (p : Models.LoanProduct),
       p.AcceptedEmploymentStatus = [] → Matcher.employmentEligible u p = true) := by
  constructor
  · intro users products u p hu hp
    rw [mem_sqlPrefilter]
    constructor
    · rintro ⟨u2, _, p2, _, hpass, heq⟩
      simp only [Matcher.stage1Pass, Bool.and_eq_true] at hpass
      obtain ⟨⟨⟨h1, h2⟩, h3⟩, h4⟩ := hpass
      simp only [Matcher.mkCandidate, Matcher.MatchCandidate.mk.injEq] at heq
      obtain ⟨-, -, -, e1, e2, e3, e4, -⟩ := heq
      exact ⟨e1 ▸ h1, e2 ▸ h2, e3 ▸ h3, e4 ▸ h4⟩
    · rintro ⟨h1, h2, h3, h4⟩
      exact ⟨u, hu, p, hp, by simp [Matcher.stage1Pass, h1, h2, h3, h4], rfl⟩
  · intro u p h
    simp [Matcher.employmentEligible, h]

/-- C1 witness: a product with an empty accepted-employment list accepts a
student applicant, and the membership equivalence at that concrete input. -/
theorem claim_C1_witness :
    (exProductMax700.AcceptedEmploymentStatus = [] ∧
     Matcher.employmentEligible exUserStudent exProductMax700 = true) ∧
    (Matcher.mkCandidate exUserStudent exProductMax700 ∈
       Matcher.sqlPrefilter [exUserStudent] [exProductMax700] ↔
      (Matcher.incomeEligible exUserStudent exProductMax700 = true ∧
       Matcher.creditScoreEligible exUserStudent exProductMax700 = true ∧
       Matcher.ageEligible exUserStudent exProductMax700 = true ∧
       Matcher.employmentEligible exUserStudent exProductMax700 = true)) :=
  ⟨⟨rfl, claim_C1_stage1_pass_iff_flags.2 exUserStudent exProductMax700 rfl⟩,
   claim_C1_stage1_pass_iff_flags.1 [exUserStudent] [exProductMax700]
     exUserStudent exProductMax700 (by decide) (by decide)⟩

/-- C2: the pipeline's Stage-1 filter (matcher.sqlPrefilter) computes the
credit flag without the maximum-credit-score clause: an applicant with credit
800 against a product whose maximum credit score is set to 700 is marked
credit-eligible and kept, while the repository SQL query and the model's own
IsFullyEligible predicate both reject the same pair. -/
theorem claim_C2_maxcredit_ignored :
    Matcher.creditScoreEligible exUser800 exProductMax700 = true ∧
    Matcher.mkCandidate exUser800 exProductMax700 ∈
      Matcher.sqlPrefilter [exUser800] [exProductMax700] ∧
    Database.sqlPrefilterWhere exUser800 exProductMax700 = false ∧
    Models.MatchCandidate.IsFullyEligible
      (Database.rowOf exUser800 exProductMax700) = false := by
  decide

/-- C3: the two Stage-1 execution strategies disagree.  The in-memory double
loop accepts a pair whose credit exceeds the product's set maximum while the
SQL query rejects it, and the in-memory loop rejects a pair failing the
employment restriction while the SQL query (which has no employment clause)
accepts it. -/
theorem claim_C3_strategies_disagree :
    (Matcher.stage1Pass exUser800 exProductMax700 = true ∧
     Database.sqlPrefilterWhere exUser800 exProductMax700 = false) ∧
    (Matcher.stage1Pass exUser800 exProductStudentsOnly = false ∧
     Database.sqlPrefilterWhere exUser800 exProductStudentsOnly = true) ∧
    (Matcher.sqlPrefilter [exUser800] [exProductMax700]).length = 1 ∧
    (Database.SQLPrefilterMatches [exUser800] [exProductMax700]).length = 0 := by
  decide

/-- C9: a fatal error at Stage 1 or at the persist step makes
ProcessNewUsers return a bare wrapped error and no MatchingResult at all: the
per-stage counts accumulated before the failure (here one user fetched) are
discarded, contradicting the claim that a summary with partial counts is
always returned. -/
theorem claim_C9_fatal_error_discards_summary :
    Matcher.ProcessNewUsers (Except.error "connection refused")
        (Except.ok [exProductMax700]) errLLM (fun _ => Except.ok (0, 0)) =
      Except.error "failed to get users: connection refused" ∧
    Matcher.ProcessNewUsers (Except.ok [exUser800]) (Except.ok [])
        stubOkLLM (fun _ => Except.error "connection reset") =
      Except.error "failed to save matches: connection reset" := by
  constructor
  · rfl
  · rfl

/-- C10: match-record construction produces exactly one row per accepted
candidate, and every row carries status "eligible" and source "llm_check",
regardless of how the candidate was accepted. -/
theorem claim_C10_one_row_per_candidate :
    ∀ candidates : List Matcher.MatchCandidate,
      (Matcher.createMatches candidates).length = candidates.length ∧
      ∀ m ∈ Matcher.createMatches candidates,
        m.Status = Models.MatchStatusEligible ∧
        m.MatchSource = Models.MatchSourceLLMCheck := by
  intro candidates
  refine ⟨List.length_map _ _, ?_⟩
  intro m hm
  simp only [Matcher.createMatches, List.mem_map] at hm
  obtain ⟨c, -, rfl⟩ := hm
  exact ⟨rfl, rfl⟩

/-- C10 witness: the row built from a fallback-accepted candidate is in the
output and carries the fixed status and source. -/
theorem claim_C10_witness :
    exRow60 ∈ Matcher.createMatches [Matcher.fallbackMark exCand60] ∧
    (exRow60.Status = Models.MatchStatusEligible ∧
     exRow60.MatchSource = Models.MatchSourceLLMCheck) :=
  ⟨by decide,
   (claim_C10_one_row_per_candidate [Matcher.fallbackMark exCand60]).2 exRow60
     (by decide)⟩

/-- C4: for a product with a positive tenure, the Stage-2 affordability
filter rejects a candidate exactly when the spec's amortizing installment for
the product's minimum amount at its maximum rate over its maximum tenure
exceeds income * 0.5 * 2, and a zero monthly rate skips the check entirely. -/
theorem claim_C4_affordability_rule (u : Models.User) (p : Models.LoanProduct)
    (htenure : p.TenureMaxMonths ≠ 0) :
    (0 < p.InterestRateMax / 100 / 12 →
      (Matcher.passesBusinessRules u p = false ↔
        u.MonthlyIncome * (1 / 2) * 2 <
          Matcher.specInstallment p.LoanAmountMin (p.InterestRateMax / 100 / 12)
            p.TenureMaxMonths.toNat)) ∧
    (p.InterestRateMax / 100 / 12 = 0 →
      Matcher.passesBusinessRules u p = true) := by
  simp only [Matcher.passesBusinessRules, Matcher.specInstallment, if_neg htenure,
    goPow_eq_pow]
  constructor
  · intro hr
    rw [if_pos hr]
    split_ifs with hlt
    · exact iff_of_true rfl hlt
    · exact iff_of_false (by simp) hlt
  · intro hr0
    simp [hr0]

/-- C4 witness: the rule instantiated at a 12-percent, 12-month product. -/
theorem claim_C4_witness :
    exProductMax700.TenureMaxMonths ≠ 0 ∧
    ((0 < exProductMax700.InterestRateMax / 100 / 12 →
       (Matcher.passesBusinessRules exUser800 exProductMax700 = false ↔
         exUser800.MonthlyIncome * (1 / 2) * 2 <
           Matcher.specInstallment exProductMax700.LoanAmountMin
             (exProductMax700.InterestRateMax / 100 / 12)
             exProductMax700.TenureMaxMonths.toNat)) ∧
     (exProductMax700.InterestRateMax / 100 / 12 = 0 →
       Matcher.passesBusinessRules exUser800 exProductMax700 = true)) :=
  ⟨by decide, claim_C4_affordability_rule exUser800 exProductMax700 (by decide)⟩

/-- C5 refuted on the model-side path: an income-0 applicant against a
zero-income-floor product — the claim's income = minIncome boundary — makes
CalculateMatchScore divide 0/0 unguarded, and the resulting NaN propagates
past every comparison to the returned score, which is therefore not within
[0, 100].  At the same boundary with a positive income floor (income =
minIncome = 10000, credit = minCredit = 700) the score is finite and in
range.  The matcher-side path guards its divisions (see the component bounds
lemmas above). -/
theorem claim_C5_nan_at_zero_income_boundary :
    (exRowZeroZero.MonthlyIncome = exRowZeroZero.MinMonthlyIncome ∧
     exRowZeroZero.CreditScore = exRowZeroZero.MinCreditScore ∧
     Models.MatchCandidate.CalculateMatchScore exRowZeroZero =
       Models.GoFloat.nan ∧
     Models.GoFloat.withinRange 0 100
       (Models.MatchCandidate.CalculateMatchScore exRowZeroZero) = false) ∧
    (exRowBoundary.MonthlyIncome = exRowBoundary.MinMonthlyIncome ∧
     exRowBoundary.CreditScore = exRowBoundary.MinCreditScore ∧
     Models.GoFloat.withinRange 0 100
       (Models.MatchCandidate.CalculateMatchScore exRowBoundary) = true) := by
  constructor
  · exact ⟨rfl, rfl, by decide, by decide⟩
  · refine ⟨rfl, rfl, ?_⟩
    norm_num [Models.MatchCandidate.CalculateMatchScore, Models.GoFloat.fdiv,
      Models.GoFloat.flt, Models.GoFloat.fmulConst, Models.GoFloat.fadd,
      Models.GoFloat.withinRange, exRowBoundary, Database.rowOf,
      exUserBoundary, exProductMin700]

/-- When no API key is configured the assessor loop keeps every candidate
whose user and product resolve, attaching the stub verdict, and reports no
error. -/
theorem llmCheckList_noKey
    (network : Models.User → Models.LoanProduct → Except String Matcher.LLMResponse)
    (uM : ℤ → Option Models.User) (pM : ℤ → Option Models.LoanProduct) :
    ∀ candidates : List Matcher.MatchCandidate,
      (∀ c ∈ candidates, (uM c.UserID).isSome ∧ (pM c.ProductID).isSome) →
      Matcher.llmCheckList (Matcher.EvaluateMatch "" network) uM pM candidates =
        (candidates.map (fun c => Matcher.withResponse c Matcher.noKeyResponse),
         none) := by
  intro candidates
  induction candidates with
  | nil => intro _; rfl
  | cons c rest ih =>
    intro h
    obtain ⟨hu, hp⟩ := h c (by simp)
    obtain ⟨u, hu2⟩ := Option.isSome_iff_exists.mp hu
    obtain ⟨p, hp2⟩ := Option.isSome_iff_exists.mp hp
    have hrest := ih fun x hx => h x (List.mem_cons_of_mem c hx)
    simp only [Matcher.llmCheckList, hrest, hu2, hp2, Matcher.EvaluateMatch,
      if_pos rfl, Matcher.noKeyResponse, List.map_cons]
    rfl

/-- C7 (amended): when the external call errors, the candidate is kept with
the synthetic fallback note exactly when its Stage-2 score is at least 60
(so a score of exactly 60 is accepted, not dropped). -/
theorem claim_C7_error_fallback_at_least_60
    (llm : Models.User → Models.LoanProduct → Except String Matcher.LLMResponse)
    (users : List Models.User) (products : List Models.LoanProduct)
    (c : Matcher.MatchCandidate) (rest : List Matcher.MatchCandidate)
    (u : Models.User) (p : Models.LoanProduct) (e : String)
    (hu : Matcher.mapUserById users c.UserID = some u)
    (hp : Matcher.mapProductById products c.ProductID = some p)
    (herr : llm u p = Except.error e) :
    (Matcher.llmCheck llm (c :: rest) users products).1 =
      (if 60 ≤ c.EligibilityScore then [Matcher.fallbackMark c] else []) ++
        (Matcher.llmCheck llm rest users products).1 := by
  simp only [Matcher.llmCheck, Matcher.llmCheckList, hu, hp, herr]
  split_ifs with h <;> simp

/-- C7 counterexample: a candidate whose score is exactly 60 — thus not
exceeding the threshold — is accepted by the fallback path when the external
call errors, refuting the strict-threshold reading. -/
theorem claim_C7_counterexample :
    (Matcher.llmCheck errLLM [exCand60] [exUser800] [exProductMax700]).1 =
      [Matcher.fallbackMark exCand60] ∧
    ¬ (60 < exCand60.EligibilityScore) := by
  decide

/-- C7 witness: the amended rule applied at the concrete score-60 candidate. -/
theorem claim_C7_witness :
    (Matcher.mapUserById [exUser800] exCand60.UserID = some exUser800 ∧
     Matcher.mapProductById [exProductMax700] exCand60.ProductID =
       some exProductMax700 ∧
     errLLM exUser800 exProductMax700 = Except.error "timeout") ∧
    (Matcher.llmCheck errLLM [exCand60] [exUser800] [exProductMax700]).1 =
      (if 60 ≤ exCand60.EligibilityScore then [Matcher.fallbackMark exCand60]
       else []) ++
        (Matcher.llmCheck errLLM [] [exUser800] [exProductMax700]).1 :=
  ⟨⟨by decide, by decide, rfl⟩,
   claim_C7_error_fallback_at_least_60 errLLM [exUser800] [exProductMax700]
     exCand60 [] exUser800 exProductMax700 "timeout" (by decide) (by decide) rfl⟩

/-- C8: with no API key configured, the assessor accepts every candidate
whose user and product resolve, attaching the fixed 0.7 confidence and the
explanatory note, and its output is never empty for a non-empty input. -/
theorem claim_C8_no_key_accepts_all
    (network : Models.User → Models.LoanProduct → Except String Matcher.LLMResponse)
    (users : List Models.User) (products : List Models.LoanProduct)
    (candidates : List Matcher.MatchCandidate)
    (h : ∀ c ∈ candidates,
        (Matcher.mapUserById users c.UserID).isSome ∧
        (Matcher.mapProductById products c.ProductID).isSome) :
    Matcher.llmCheck (Matcher.EvaluateMatch "" network) candidates users products =
      (candidates.map (fun c => Matcher.withResponse c Matcher.noKeyResponse),
       none) ∧
    (candidates ≠ [] →
      (Matcher.llmCheck (Matcher.EvaluateMatch "" network) candidates users
          products).1 ≠ []) := by
  have hmain := llmCheckList_noKey network (Matcher.mapUserById users)
    (Matcher.mapProductById products) candidates h
  refine ⟨hmain, fun hne => ?_⟩
  simp only [Matcher.llmCheck] at hmain ⊢
  rw [hmain]
  simpa using hne

/-- C8 witness: the no-key short-circuit at a concrete candidate list. -/
theorem claim_C8_witness :
    (∀ c ∈ [exCand60],
       (Matcher.mapUserById [exUser800] c.UserID).isSome ∧
       (Matcher.mapProductById [exProductMax700] c.ProductID).isSome) ∧
    (Matcher.llmCheck (Matcher.EvaluateMatch "" errLLM) [exCand60] [exUser800]
        [exProductMax700] =
      ([exCand60].map (fun c => Matcher.withResponse c Matcher.noKeyResponse),
       none) ∧
     ([exCand60] ≠ [] →
       (Matcher.llmCheck (Matcher.EvaluateMatch "" errLLM) [exCand60] [exUser800]
           [exProductMax700]).1 ≠ [])) :=
  ⟨by decide,
   claim_C8_no_key_accepts_all errLLM [exUser800] [exProductMax700] [exCand60]
     (by decide)⟩

/-- A pass with zero comparisons is the identity. -/
theorem bubblePass_zero (l : List Matcher.MatchCandidate) :
    Matcher.bubblePass l 0 = l := by
  match l with
  | [] => rfl
  | [a] => rfl
  | a :: b :: rest => rfl

/-- A bubble pass preserves length. -/
theorem bubblePass_length (k : ℕ) :
    ∀ l : List Matcher.MatchCandidate, (Matcher.bubblePass l k).length = l.length := by
  induction k with
  | zero => intro l; rw [bubblePass_zero]
  | succ k ih =>
    intro l
    match l with
    | [] => rfl
    | [a] => rfl
    | a :: b :: rest =>
      simp only [Matcher.bubblePass]
      split_ifs <;> simp [ih]

/-- A bubble pass permutes the list. -/
theorem bubblePass_perm (k : ℕ) :
    ∀ l : List Matcher.MatchCandidate, (Matcher.bubblePass l k).Perm l := by
  induction k with
  | zero => intro l; rw [bubblePass_zero]
  | succ k ih =>
    intro l
    match l with
    | [] => rfl
    | [a] => rfl
    | a :: b :: rest =>
      simp only [Matcher.bubblePass]
      split_ifs with h
      · exact ((ih (a :: rest)).cons b).trans (List.Perm.swap a b rest)
      · exact (ih (b :: rest)).cons a

/-- A bubble pass never reorders candidates of equal score: the sublist of
any fixed score value is unchanged. -/
theorem bubblePass_filterScore (v : ℚ) (k : ℕ) :
    ∀ l : List Matcher.MatchCandidate,
      (Matcher.bubblePass l k).filter
          (fun c => decide (c.EligibilityScore = v)) =
        l.filter (fun c => decide (c.EligibilityScore = v)) := by
  induction k with
  | zero => intro l; rw [bubblePass_zero]
  | succ k ih =>
    intro l
    match l with
    | [] => rfl
    | [a] => rfl
    | a :: b :: rest =>
      simp only [Matcher.bubblePass]
      split_ifs with hab
      · by_cases ha : a.EligibilityScore = v <;>
          by_cases hb : b.EligibilityScore = v
        · rw [ha, hb] at hab
          exact absurd hab (lt_irrefl v)
        · simp [List.filter_cons, ha, hb, ih (a :: rest)]
        · simp [List.filter_cons, ha, hb, ih (a :: rest)]
        · simp [List.filter_cons, ha, hb, ih (a :: rest)]
      · by_cases ha : a.EligibilityScore = v <;>
          by_cases hb : b.EligibilityScore = v <;>
          simp [List.filter_cons, ha, hb, ih (b :: rest)]

/-- Structure of a bubble pass with `k` comparisons on a list of length at
least `k + 1`: the first `k + 1` elements are permuted so that a minimum
of them lands at position `k`, everything beyond position `k` is untouched. -/
theorem bubblePass_split (k : ℕ) :
    ∀ l : List Matcher.MatchCandidate, k + 1 ≤ l.length →
      ∃ pre m, Matcher.bubblePass l k = pre ++ m :: l.drop (k + 1) ∧
        pre.length = k ∧
        (∀ x ∈ pre, m.EligibilityScore ≤ x.EligibilityScore) ∧
        (m :: pre).Perm (l.take (k + 1)) := by
  induction k with
  | zero =>
    intro l hl
    match l with
    | a :: t =>
      exact ⟨[], a, by simp [bubblePass_zero], rfl, by simp, by simp⟩
  | succ k ih =>
    intro l hl
    match l with
    | a :: b :: rest =>
      simp only [Matcher.bubblePass]
      split_ifs with hab
      · obtain ⟨pre, m, heq, hlen, hmin, hperm⟩ :=
          ih (a :: rest) (by simp at hl ⊢; omega)
        have hma : m.EligibilityScore ≤ a.EligibilityScore := by
          have ha : a ∈ m :: pre := hperm.symm.subset (by simp [List.take_succ_cons])
          rcases List.mem_cons.mp ha with h | h
          · exact le_of_eq (congrArg Matcher.MatchCandidate.EligibilityScore h.symm)
          · exact hmin a h
        refine ⟨b :: pre, m, ?_, by simp [hlen], ?_, ?_⟩
        · simp only [List.drop_succ_cons] at heq ⊢
          simp [heq]
        · intro x hx
          rcases List.mem_cons.mp hx with h | h
          · exact h ▸ le_trans hma (le_of_lt hab)
          · exact hmin x h
        · have h1 : (m :: b :: pre).Perm (b :: m :: pre) := List.Perm.swap b m pre
          have h2 : (b :: m :: pre).Perm (b :: a :: rest.take k) :=
            (hperm.cons b).trans (by simp [List.take_succ_cons])
          have h3 : (b :: a :: rest.take k).Perm (a :: b :: rest.take k) :=
            List.Perm.swap a b _
          simpa [List.take_succ_cons] using (h1.trans h2).trans h3
      · obtain ⟨pre, m, heq, hlen, hmin, hperm⟩ :=
          ih (b :: rest) (by simp at hl ⊢; omega)
        have hmb : m.EligibilityScore ≤ b.EligibilityScore := by
          have hb : b ∈ m :: pre := hperm.symm.subset (by simp [List.take_succ_cons])
          rcases List.mem_cons.mp hb with h | h
          · exact le_of_eq (congrArg Matcher.MatchCandidate.EligibilityScore h.symm)
          · exact hmin b h
        refine ⟨a :: pre, m, ?_, by simp [hlen], ?_, ?_⟩
        · simp only [List.drop_succ_cons] at heq ⊢
          simp [heq]
        · intro x hx
          rcases List.mem_cons.mp hx with h | h
          · exact h ▸ le_trans hmb (le_of_not_lt hab)
          · exact hmin x h
        · have h1 : (m :: a :: pre).Perm (a :: m :: pre) := List.Perm.swap a m pre
          have h2 : (a :: m :: pre).Perm (a :: b :: rest.take k) :=
            (hperm.cons a).trans (by simp [List.take_succ_cons])
          simpa [List.take_succ_cons] using h1.trans h2

/-- The outer bubble loop permutes the list. -/
theorem bubbleOuter_perm (k : ℕ) :
    ∀ l : List Matcher.MatchCandidate, (Matcher.bubbleOuter l k).Perm l := by
  induction k with
  | zero => intro l; rfl
  | succ k ih =>
    intro l
    exact (ih (Matcher.bubblePass l (k + 1))).trans (bubblePass_perm (k + 1) l)

/-- The outer bubble loop keeps each equal-score sublist in input order. -/
theorem bubbleOuter_filterScore (v : ℚ) (k : ℕ) :
    ∀ l : List Matcher.MatchCandidate,
      (Matcher.bubbleOuter l k).filter
          (fun c => decide (c.EligibilityScore = v)) =
        l.filter (fun c => decide (c.EligibilityScore = v)) := by
  induction k with
  | zero => intro l; rfl
  | succ k ih =>
    intro l
    exact (ih (Matcher.bubblePass l (k + 1))).trans
      (bubblePass_filterScore v (k + 1) l)

/-- Invariant argument for the outer loop: if everything beyond position
`k + 1` is already sorted and dominated by the first `k + 1` elements, the
remaining passes sort the whole list. -/
theorem bubbleOuter_sorted (k : ℕ) :
    ∀ l : List Matcher.MatchCandidate,
      sortedDesc (l.drop (k + 1)) →
      (∀ x ∈ l.take (k + 1), ∀ y ∈ l.drop (k + 1),
        y.EligibilityScore ≤ x.EligibilityScore) →
      sortedDesc (Matcher.bubbleOuter l k) := by
  induction k with
  | zero =>
    intro l hsorted hdom
    match l with
    | [] => simp [Matcher.bubbleOuter]
    | a :: t =>
      simp only [Matcher.bubbleOuter]
      refine List.sorted_cons.mpr ⟨fun b hb => ?_, by simpa using hsorted⟩
      exact hdom a (by simp) b (by simpa using hb)
  | succ k ih =>
    intro l hsorted hdom
    show sortedDesc (Matcher.bubbleOuter (Matcher.bubblePass l (k + 1)) k)
    rcases le_or_lt l.length (k + 1) with hlen | hlen
    · have hnil : (Matcher.bubblePass l (k + 1)).drop (k + 1) = [] := by
        apply List.drop_eq_nil_of_le
        rw [bubblePass_length]
        exact hlen
      exact ih _ (by simp [hnil]) (by simp [hnil])
    · obtain ⟨pre, m, heq, hplen, hmin, hperm⟩ :=
        bubblePass_split (k + 1) l (by omega)
      have hmtake : m ∈ l.take (k + 2) := hperm.subset (by simp)
      have hdrop : (Matcher.bubblePass l (k + 1)).drop (k + 1) =
          m :: l.drop (k + 2) := by
        rw [heq, List.drop_left' hplen]
      have htake : (Matcher.bubblePass l (k + 1)).take (k + 1) = pre := by
        rw [heq, List.take_left' hplen]
      apply ih
      · rw [hdrop]
        exact List.sorted_cons.mpr ⟨fun y hy => hdom m hmtake y hy, hsorted⟩
      · intro x hx y hy
        rw [htake] at hx
        rw [hdrop] at hy
        have hxtake : x ∈ l.take (k + 2) := hperm.subset (by simp [hx])
        rcases List.mem_cons.mp hy with h | h
        · exact h ▸ hmin x hx
        · exact hdom x hxtake y h

/-- The bubble sort of selectTopCandidates: a stable descending sort. -/
theorem bubbleSortByScore_spec (l : List Matcher.MatchCandidate) :
    (Matcher.bubbleSortByScore l).Perm l ∧
    sortedDesc (Matcher.bubbleSortByScore l) ∧
    (∀ v : ℚ, (Matcher.bubbleSortByScore l).filter
        (fun c => decide (c.EligibilityScore = v)) =
      l.filter (fun c => decide (c.EligibilityScore = v))) := by
  refine ⟨bubbleOuter_perm _ l, ?_, fun v => bubbleOuter_filterScore v _ l⟩
  apply bubbleOuter_sorted
  · have : l.drop (l.length - 1 + 1) = [] := List.drop_eq_nil_of_le (by omega)
    simp [this]
  · have : l.drop (l.length - 1 + 1) = [] := List.drop_eq_nil_of_le (by omega)
    simp [this]

/-- C6 counterexample: with at most 100 survivors the ranker returns its
input unchanged, so a two-element batch in ascending score order comes back
unsorted, refuting the claim that the output is always sorted descending. -/
theorem claim_C6_counterexample :
    Matcher.selectTopCandidates [exCandLow, exCandHigh] 100 =
      [exCandLow, exCandHigh] ∧
    ¬ sortedDesc (Matcher.selectTopCandidates [exCandLow, exCandHigh] 100) := by
  refine ⟨rfl, fun h => ?_⟩
  rw [show Matcher.selectTopCandidates [exCandLow, exCandHigh] 100 =
      [exCandLow, exCandHigh] from rfl] at h
  have hle := (List.sorted_cons.mp h).1 exCandHigh (by simp)
  norm_num [exCandLow, exCandHigh] at hle

/-- C6 (amended): when the survivor count exceeds the budget of 100 the
ranker returns the first 100 elements of a stable descending sort of its
input (a permutation, sorted by score descending, equal-score candidates in
input order); when the count is within the budget the input is returned
unchanged, not sorted. -/
theorem claim_C6_ranker_amended (candidates : List Matcher.MatchCandidate) :
    (candidates.length ≤ 100 →
      Matcher.selectTopCandidates candidates 100 = candidates) ∧
    (100 < candidates.length →
      ∃ s, s.Perm candidates ∧ sortedDesc s ∧
        (∀ v : ℚ, s.filter (fun c => decide (c.EligibilityScore = v)) =
          candidates.filter (fun c => decide (c.EligibilityScore = v))) ∧
        Matcher.selectTopCandidates candidates 100 = s.take 100) := by
  constructor
  · intro h
    simp [Matcher.selectTopCandidates, h]
  · intro h
    obtain ⟨hperm, hsorted, hfilter⟩ := bubbleSortByScore_spec candidates
    refine ⟨Matcher.bubbleSortByScore candidates, hperm, hsorted, hfilter, ?_⟩
    simp [Matcher.selectTopCandidates, Nat.not_le.mpr h]

/-- C6 witness: both branches of the amended rule at concrete inputs — a
single-element batch is returned unchanged, and a 101-element batch is
truncated to the first 100 of its stable descending sort. -/
theorem claim_C6_witness :
    ([exCandLow].length ≤ 100 ∧
     Matcher.selectTopCandidates [exCandLow] 100 = [exCandLow]) ∧
    (100 < (List.replicate 101 exCandLow).length ∧
     ∃ s, s.Perm (List.replicate 101 exCandLow) ∧ sortedDesc s ∧
       (∀ v : ℚ, s.filter (fun c => decide (c.EligibilityScore = v)) =
         (List.replicate 101 exCandLow).filter
           (fun c => decide (c.EligibilityScore = v))) ∧
       Matcher.selectTopCandidates (List.replicate 101 exCandLow) 100 =
         s.take 100) :=
  ⟨⟨by decide, (claim_C6_ranker_amended [exCandLow]).1 (by decide)⟩,
   ⟨by simp, (claim_C6_ranker_amended (List.replicate 101 exCandLow)).2
      (by simp)⟩⟩
